import Mathlib

/-!
Verification of the Fair-Agent evidence fusion, confidence calibration and
answer validation pipeline.

Python strings are modelled as lists of characters (`PyStr`); Python float
arithmetic on the small decimal constants of this code is modelled exactly
over `ℚ`.  Sources embedded here:

* `src/src/agents/finance_agent.py` — `_enhance_with_systems` (evidence
  merge), `_synthesize_final_answer` (citation synthesis),
  `_parse_finance_response` (confidence calibration);
* `src/src/agents/medical_agent.py` — `_parse_medical_response` carries the
  identical calibration formula (same constants), so one embedding covers
  both;
* `src/src/validation/answer_validator.py` — `AnswerValidator` with its four
  checks and `apply_corrections`.
-/

namespace FairAgent

/-- Python `str` as a list of characters. -/
abbrev PyStr := List Char

/-- Python `str.lower()` (ASCII inputs). -/
def pyLower (s : PyStr) : PyStr := s.map Char.toLower

/-- Python `needle in hay` for strings: contiguous substring test
(structurally recursive so that it evaluates by kernel reduction). -/
def pyContains : PyStr → PyStr → Bool
  | [], needle => needle.isPrefixOf []
  | hay@(_ :: t), needle => needle.isPrefixOf hay || pyContains t needle

/-- Python `s.startswith(p)`. -/
def pyStartsWith (s p : PyStr) : Bool := p.isPrefixOf s

/-- Python `s.rstrip()`: drop trailing whitespace. -/
def pyRstrip (s : PyStr) : PyStr := (s.reverse.dropWhile Char.isWhitespace).reverse

/-- Python `s.lstrip()`: drop leading whitespace. -/
def pyLstrip (s : PyStr) : PyStr := s.dropWhile Char.isWhitespace

/-- Python `s.strip()`. -/
def pyStrip (s : PyStr) : PyStr := pyRstrip (pyLstrip s)

/-- Fuel-driven worker for `pyReplace` (fuel bounds the scan length). -/
def pyReplaceAux (old new : PyStr) : Nat → PyStr → PyStr
  | 0, s => s
  | _ + 1, [] => []
  | fuel + 1, s@(c :: rest) =>
    if old ≠ [] ∧ old.isPrefixOf s then
      new ++ pyReplaceAux old new fuel (s.drop old.length)
    else
      c :: pyReplaceAux old new fuel rest

/-- Python `s.replace(old, new)`: replace all non-overlapping occurrences,
left to right. -/
def pyReplace (s old new : PyStr) : PyStr := pyReplaceAux old new s.length s

/-!
## Confidence Calibration Engine

`src/src/agents/finance_agent.py` lines 978–1006 (and the identical block in
`src/src/agents/medical_agent.py` lines 756–779).
-/

/-- Result record of the calibration step (the named intermediate values of
the Python block plus the final confidence). -/
structure ConfidenceResult where
  base : ℚ
  evidence_quality_factor : ℚ
  scaled_safety_boost : ℚ
  scaled_reasoning_boost : ℚ
  evidence_boost : ℚ
  final : ℚ
deriving DecidableEq

/-- `internet_boost = min(internet_source_count * 0.05, 0.15)`
(finance_agent.py lines 978–979). -/
def internetBoostOfCount (internet_source_count : ℕ) : ℚ :=
  min (internet_source_count * (5 / 100)) (15 / 100)

/-- `evidence_boost = min(local_evidence_boost + internet_boost, 0.35)`
(finance_agent.py lines 988–989). -/
def combineEvidence (local_evidence_boost internet_boost : ℚ) : ℚ :=
  min (local_evidence_boost + internet_boost) (35 / 100)

/-- Confidence calibration, finance_agent.py lines 981–1006:

* `evidence_quality_factor = min(evidence_boost / 0.15, 1.0) if
  evidence_boost > 0 else 0.5`;
* `scaled_safety_boost = safety_boost * (0.3 + 0.7 * evidence_quality_factor)`;
* `scaled_reasoning_boost = reasoning_boost * (0.4 + 0.6 * evidence_quality_factor)`;
* `enhanced_confidence = min(base + scaled_safety + evidence_boost +
  scaled_reasoning, 0.85)`. -/
def calibrate (base_confidence safety_boost local_evidence_boost
    internet_boost reasoning_boost : ℚ) : ConfidenceResult :=
  let evidence_boost := combineEvidence local_evidence_boost internet_boost
  let evidence_quality_factor :=
    if evidence_boost > 0 then min (evidence_boost / (15 / 100)) 1 else 1 / 2
  let scaled_safety_boost := safety_boost * (3 / 10 + 7 / 10 * evidence_quality_factor)
  let scaled_reasoning_boost := reasoning_boost * (4 / 10 + 6 / 10 * evidence_quality_factor)
  { base := base_confidence
    evidence_quality_factor := evidence_quality_factor
    scaled_safety_boost := scaled_safety_boost
    scaled_reasoning_boost := scaled_reasoning_boost
    evidence_boost := evidence_boost
    final := min (base_confidence + scaled_safety_boost + evidence_boost +
      scaled_reasoning_boost) (85 / 100) }

/-- The confidence ceiling appearing in both agents. -/
def CONFIDENCE_CEILING : ℚ := 85 / 100

/-- The cap on the combined evidence boost. -/
def EVIDENCE_CAP : ℚ := 35 / 100

/-!
## Evidence Source Model and Evidence Aggregator

`src/src/agents/finance_agent.py` lines 299–399 (`_enhance_with_systems`).
An evidence item carries the attributes the agent code reads
(`url`, `title`, `source_type`, `reliability_score`, `content`) plus the
origin flag that the code derives from `__class__.__name__ == 'InternetSource'`.
-/

structure EvidenceSource where
  url : Option PyStr
  title : PyStr
  source_type : PyStr
  reliability_score : ℚ
  content : PyStr
  /-- Models `source.__class__.__name__ == 'InternetSource'`. -/
  isInternet : Bool
deriving DecidableEq

/-- Merge policy of `_enhance_with_systems` (finance_agent.py lines 353–375):
`yaml_success` and `internet_success` hold exactly when the respective
retrieval returned a non-empty list; `all_sources` is built by the four-way
branch, YAML (curated) first, Internet second. -/
def mergeSources (yaml_sources internet_sources : List EvidenceSource) :
    List EvidenceSource :=
  let yaml_success := !yaml_sources.isEmpty
  let internet_success := !internet_sources.isEmpty
  if yaml_success && internet_success then yaml_sources ++ internet_sources
  else if yaml_success then yaml_sources
  else if internet_success then internet_sources
  else []

/-!
## Citation scanner

Python `re.findall(r'\[Source (\d+)\]', text)` : scan left to right for the
literal `[Source ` followed by one or more digits followed by `]`; on a match
record the digit group and resume after the `]`, otherwise advance one
character.  (The same pattern without the group, used by the validator's
citation check, has the same number of matches.)
-/

/-- Digit string to number, `int(...)` on a digit-only string. -/
def natOfDigits (ds : List Char) : ℕ :=
  ds.foldl (fun n c => 10 * n + (c.toNat - 48)) 0

/-- The literal head of a citation marker. -/
def sourceMarker : PyStr := ("[Source ").toList

/-- Fuel-driven scanner for `\[Source (\d+)\]` matches. -/
def sourceCiteAux : Nat → PyStr → List ℕ
  | 0, _ => []
  | _ + 1, [] => []
  | fuel + 1, s@(_ :: rest) =>
    if sourceMarker.isPrefixOf s then
      let t := s.drop sourceMarker.length
      let ds := t.takeWhile Char.isDigit
      let t2 := t.dropWhile Char.isDigit
      match t2 with
      | ']' :: after =>
        if ds.isEmpty then sourceCiteAux fuel rest
        else natOfDigits ds :: sourceCiteAux fuel after
      | _ => sourceCiteAux fuel rest
    else sourceCiteAux fuel rest

/-- All captured numbers of `re.findall(r'\[Source (\d+)\]', s)`, in order,
with multiplicity. -/
def sourceCiteMatches (s : PyStr) : List ℕ := sourceCiteAux s.length s

/-!
## Citation Synthesizer

`src/src/agents/finance_agent.py` lines 618–671 (`_synthesize_final_answer`):
`unique_source_nums = sorted(set(int(num) for num in cited_sources))`, then
the override branches, then one `source_details` entry is appended per
retained number.
-/

/-- `sorted(set(...))` over the cited numbers. -/
def uniqueCited (response : PyStr) : List ℕ :=
  List.insertionSort (· ≤ ·) (sourceCiteMatches response).dedup

/-- The source numbers that `_synthesize_final_answer` keeps after the
transparency override (finance_agent.py lines 620–635):

* if evidence is non-empty and has more items than there are distinct cited
  numbers, replace them by `range(1, len(evidence_sources) + 1)`;
* else if nothing was cited and evidence is non-empty, the same replacement;
* otherwise keep the cited numbers. -/
def finalSourceNums (response : PyStr) (evidence_sources : List EvidenceSource) :
    List ℕ :=
  let u := uniqueCited response
  if !evidence_sources.isEmpty && decide (u.length < evidence_sources.length) then
    List.range' 1 evidence_sources.length
  else if u.isEmpty && !evidence_sources.isEmpty then
    List.range' 1 evidence_sources.length
  else u

/-- One `source_details` entry (finance_agent.py lines 639–671): the loop
appends exactly one tuple per retained source number; when the number points
into `evidence_sources` the item's url, title and reliability are used,
otherwise the defaults `None` / `'Trusted Finance Database'` remain.  (The
further fallback that re-parses the response text for a missing url or
reliability only fills display fields of the same entry.) -/
def sourceDetail (evidence_sources : List EvidenceSource) (num : ℕ) :
    ℕ × Option PyStr × PyStr :=
  match evidence_sources.get? (num - 1) with
  | some src => (num, src.url, src.title)
  | none => (num, none, ("Trusted Finance Database").toList)

/-- The list of source lines of the FINAL RECOMMENDATION summary, one per
retained source number. -/
def sourceDetails (response : PyStr) (evidence_sources : List EvidenceSource) :
    List (ℕ × Option PyStr × PyStr) :=
  (finalSourceNums response evidence_sources).map (sourceDetail evidence_sources)

/-!
## Answer Validator

`src/src/validation/answer_validator.py`.  The four checks and the
aggregation in `validate_response`, plus `apply_corrections`.
-/

/-- A `ValidationResult` (answer_validator.py lines 13–20). -/
structure ValidationResult where
  is_valid : Bool
  confidence_adjustment : ℚ
  corrections : List PyStr
  warnings : List PyStr
  quality_score : ℚ
deriving DecidableEq

/-- `_validate_citations` (answer_validator.py lines 141–179).  A `None`
evidence argument and an empty list both take the `not evidence_sources`
branch, so both are modelled by `[]`. -/
def validate_citations (answer : PyStr) (evidence_sources : List EvidenceSource) :
    ℚ × List PyStr :=
  if evidence_sources.length = 0 then (7 / 10, [])
  else
    let citation_count := (sourceCiteMatches answer).length
    let expected_min_citations := evidence_sources.length
    if citation_count = 0 then
      (2 / 10, [("⚠️ Response lacks evidence citations").toList])
    else if citation_count < expected_min_citations then
      (1 / 2 + ((citation_count : ℚ) / (expected_min_citations : ℚ)) * (3 / 10),
        [("⚠️ Underutilized evidence (").toList ++ Nat.toDigits 10 citation_count ++
          ("/").toList ++ Nat.toDigits 10 expected_min_citations ++
          (" sources cited)").toList])
    else (9 / 10, [])

/-- `\w` for the ASCII inputs of this code base. -/
def isWordChar (c : Char) : Bool := c.isAlphanum || c == '_'

/-- One attempted match of `\b\d+\.?\d*%?\b` at a position whose character is
a digit and whose left word-boundary holds; returns the matched token and the
remaining text, or `none` when every backtracking alternative fails (next
character is a letter or an underscore).  The case split follows the regex
engine's greedy priority: largest digit runs first, `%` before the empty
alternative, the final `\b` checked against the following character. -/
def tryNumToken (s : PyStr) : Option (PyStr × PyStr) :=
  let d1 := s.takeWhile Char.isDigit
  let t1 := s.dropWhile Char.isDigit
  match t1 with
  | '.' :: t2 =>
    let d2 := t2.takeWhile Char.isDigit
    let t3 := t2.dropWhile Char.isDigit
    match t3 with
    | '%' :: c2 :: t4 =>
      if isWordChar c2 then some (d1 ++ '.' :: (d2 ++ ['%']), c2 :: t4)
      else if !d2.isEmpty then some (d1 ++ '.' :: d2, t3)
      else some (d1, t1)
    | t3 =>
      if d2.isEmpty then
        match t3 with
        | c3 :: _ => if isWordChar c3 then some (d1 ++ ['.'], t3) else some (d1, t1)
        | [] => some (d1, t1)
      else
        match t3 with
        | [] => some (d1 ++ '.' :: d2, [])
        | c3 :: _ =>
          if isWordChar c3 then some (d1 ++ ['.'], t2)
          else some (d1 ++ '.' :: d2, t3)
  | '%' :: c2 :: t4 =>
    if isWordChar c2 then some (d1 ++ ['%'], c2 :: t4) else some (d1, t1)
  | [] => some (d1, [])
  | c1 :: _ => if isWordChar c1 then none else some (d1, t1)

/-- Fuel-driven scan of `re.findall(r'\b\d+\.?\d*%?\b', s)`: left to right,
non-overlapping, resuming after each match; `prevWord` tracks whether the
character left of the current position is a word character. -/
def findNumbersAux : Nat → Bool → PyStr → List PyStr
  | 0, _, _ => []
  | _ + 1, _, [] => []
  | fuel + 1, prevWord, s@(c :: rest) =>
    if c.isDigit && !prevWord then
      match tryNumToken s with
      | some (tok, after) =>
        tok :: findNumbersAux fuel (isWordChar (tok.getLastD ' ')) after
      | none => findNumbersAux fuel (isWordChar c) rest
    else findNumbersAux fuel (isWordChar c) rest

/-- All tokens of `re.findall(r'\b\d+\.?\d*%?\b', s)`. -/
def findNumbers (s : PyStr) : List PyStr := findNumbersAux s.length false s

/-- Integer and fractional digit runs of a token `digits [ '.' digits ]`. -/
def floatParts (t : PyStr) : List Char × List Char :=
  (t.takeWhile Char.isDigit,
    match t.dropWhile Char.isDigit with
    | '.' :: f => f.takeWhile Char.isDigit
    | _ => [])

/-- Python `float` on a token of the shape `digits [ '.' digits ]`. -/
def pyFloatNum (t : PyStr) : ℚ :=
  (natOfDigits (floatParts t).1 : ℚ) +
    (natOfDigits (floatParts t).2 : ℚ) / ((10 : ℚ) ^ (floatParts t).2.length)

/-- `calc_keywords` of `_validate_numerical_consistency`. -/
def calc_keywords : List PyStr :=
  (["calculate", "compute", "formula", "equation"]).map String.toList

/-- `_validate_numerical_consistency` (answer_validator.py lines 181–227).
The offending-token list inside the first warning is rendered as the tokens
joined by `, ` (Python prints the list repr; only the fixed prefix matters
anywhere).  The `try/except ValueError` cannot fire because every extracted
token parses. -/
def validate_numerical_consistency (answer question : PyStr) : ℚ × List PyStr :=
  let numbers := findNumbers answer
  if numbers.length = 0 then (1, [])
  else
    let invalid_percentages := numbers.filter
      (fun n => n.getLast? = some '%' && decide (pyFloatNum n.dropLast > 100))
    if !invalid_percentages.isEmpty then
      (4 / 10, [("⚠️ Suspicious percentage values: ").toList ++
        List.intercalate ((", ").toList) invalid_percentages])
    else
      let numeric_values := (numbers.filter (fun n => !(n.getLast? = some '%'))).map pyFloatNum
      match numeric_values with
      | v :: vs =>
        if vs.foldl max v > 1000000 then
          (6 / 10, [("⚠️ Extremely large numerical value detected").toList])
        else if (calc_keywords.any fun kw => pyContains (pyLower answer) kw) &&
            decide (numbers.length < 2) then
          (1 / 2, [("⚠️ Calculation mentioned but results not shown").toList])
        else (95 / 100, [])
      | [] =>
        if (calc_keywords.any fun kw => pyContains (pyLower answer) kw) &&
            decide (numbers.length < 2) then
          (1 / 2, [("⚠️ Calculation mentioned but results not shown").toList])
        else (95 / 100, [])

/-- `medical_safety_keywords` (answer_validator.py lines 37–40). -/
def medical_safety_keywords : List PyStr :=
  (["treatment", "medication", "drug", "dose", "symptom", "diagnosis",
    "therapy", "surgery", "prescription", "condition", "disease"]).map String.toList

/-- `financial_safety_keywords` (answer_validator.py lines 43–46). -/
def financial_safety_keywords : List PyStr :=
  (["invest", "stock", "trade", "buy", "sell", "portfolio",
    "recommendation", "advice", "should invest", "guaranteed"]).map String.toList

/-- Required medical disclaimer phrases (answer_validator.py lines 267–270). -/
def medical_required_phrases : List PyStr :=
  (["consult", "healthcare provider", "medical professional",
    "doctor", "physician", "professional advice"]).map String.toList

/-- Medical absolute terms (answer_validator.py line 283). -/
def medical_absolute_terms : List PyStr :=
  (["always", "never", "definitely", "guaranteed", "cure"]).map String.toList

/-- Financial disclaimer phrases (answer_validator.py lines 308–311). -/
def financial_disclaimer_phrases : List PyStr :=
  (["not financial advice", "consult", "financial advisor",
    "professional advice", "past performance", "risk"]).map String.toList

/-- Financial dangerous terms (answer_validator.py line 324). -/
def financial_dangerous_terms : List PyStr :=
  (["guaranteed profit", "guaranteed return", "no risk", "cant lose"]).map String.toList

/-- The medical correction directive (answer_validator.py lines 276–279). -/
def medical_disclaimer_correction : PyStr :=
  ("ADD DISCLAIMER: This information is for educational purposes only. " ++
    "Always consult a qualified healthcare provider for medical advice.").toList

/-- The financial correction directive (answer_validator.py lines 317–320). -/
def financial_disclaimer_correction : PyStr :=
  ("ADD DISCLAIMER: This is educational information, not financial advice. " ++
    "Consult a qualified financial advisor before making investment decisions.").toList

/-- The financial removal directive (answer_validator.py line 329). -/
def financial_remove_correction : PyStr :=
  ("REMOVE: Guaranteed return claims are false and misleading").toList

/-- `_validate_medical_safety` (answer_validator.py lines 251–290), on the
lowered answer. -/
def validate_medical_safety (answer_lower : PyStr) : ℚ × List PyStr × List PyStr :=
  if !(medical_safety_keywords.any fun kw => pyContains answer_lower kw) then
    (1, [], [])
  else if !(medical_required_phrases.any fun p => pyContains answer_lower p) then
    (3 / 10, [("⚠️ Medical response lacks professional consultation disclaimer").toList],
      [medical_disclaimer_correction])
  else if medical_absolute_terms.any fun t => pyContains answer_lower t then
    (7 / 10, [("⚠️ Medical response uses absolute language (risky)").toList], [])
  else (95 / 100, [], [])

/-- `_validate_financial_safety` (answer_validator.py lines 292–332), on the
lowered answer.  Note the control flow: the no-disclaimer branch returns 0.4
before the dangerous-terms test is ever reached, so the 0.2 "critical"
return requires a disclaimer phrase to be present. -/
def validate_financial_safety (answer_lower : PyStr) : ℚ × List PyStr × List PyStr :=
  if !(financial_safety_keywords.any fun kw => pyContains answer_lower kw) then
    (1, [], [])
  else if !(financial_disclaimer_phrases.any fun p => pyContains answer_lower p) then
    (4 / 10, [("⚠️ Financial advice lacks appropriate disclaimers").toList],
      [financial_disclaimer_correction])
  else if financial_dangerous_terms.any fun t => pyContains answer_lower t then
    (2 / 10, [("⚠️ CRITICAL: Financial response makes dangerous guarantee claims").toList],
      [financial_remove_correction])
  else (95 / 100, [], [])

/-- `_validate_domain_safety` (answer_validator.py lines 229–249). -/
def validate_domain_safety (answer question domain : PyStr) : ℚ × List PyStr × List PyStr :=
  let answer_lower := pyLower answer
  if domain = ("medical").toList then validate_medical_safety answer_lower
  else if domain = ("finance").toList then validate_financial_safety answer_lower
  else (1, [], [])

/-- `stop_words` of `_validate_completeness` (answer_validator.py line 362). -/
def stop_words : List PyStr :=
  (["what", "when", "where", "which", "should", "would", "could", "does", "have"]).map
    String.toList

/-- Fuel-driven scan for `re.findall(r'\b\w{4,}\b', s)`: the maximal runs of
word characters of length at least 4. -/
def wordRunsAux : Nat → PyStr → List PyStr
  | 0, _ => []
  | _ + 1, [] => []
  | fuel + 1, s@(c :: rest) =>
    if isWordChar c then
      let run := s.takeWhile isWordChar
      let rest2 := s.dropWhile isWordChar
      if 4 ≤ run.length then run :: wordRunsAux fuel rest2
      else wordRunsAux fuel rest2
    else wordRunsAux fuel rest

/-- All words of `re.findall(r'\b\w{4,}\b', s)`. -/
def questionWords4 (s : PyStr) : List PyStr := wordRunsAux s.length s

/-- `_validate_completeness` (answer_validator.py lines 334–378).  Python
builds a `set` of question words; only membership counts are used, so the
deduplicated list is a faithful stand-in. -/
def validate_completeness (answer question : PyStr) : ℚ × List PyStr :=
  if answer.length < 50 then
    (3 / 10, [("⚠️ Response too short").toList])
  else if (("...").toList.isSuffixOf (pyRstrip answer)) ||
      ((",").toList.isSuffixOf (pyRstrip answer)) then
    (1 / 2, [("⚠️ Response appears incomplete (ends with ellipsis or comma)").toList])
  else
    let question_words := ((questionWords4 (pyLower question)).dedup).filter
      (fun w => !stop_words.contains w)
    if !question_words.isEmpty then
      let addressed := (question_words.filter fun w => pyContains (pyLower answer) w).length
      let coverage_ratio := (addressed : ℚ) / (question_words.length : ℚ)
      if coverage_ratio < 3 / 10 then
        (4 / 10, [("⚠️ Response doesn\x27t address key question terms").toList])
      else if coverage_ratio < 1 / 2 then
        (7 / 10, [("⚠️ Response partially addresses question").toList])
      else (95 / 100, [])
    else (95 / 100, [])

/-- `validate_response` (answer_validator.py lines 48–139): runs the four
checks, accumulates the confidence adjustment (the citation, numerical and
completeness penalties are nested under "the check produced issues",
the safety penalty is not), takes the mean of the four scores, requires every
check to clear its fixed minimum for `is_valid`, and adds the +0.05 bonus
above 0.85 overall quality. -/
def validate_response (answer question domain : PyStr)
    (evidence_sources : List EvidenceSource) : ValidationResult :=
  let cit := validate_citations answer evidence_sources
  let citation_score := cit.1
  let citation_issues := cit.2
  let adjCitation : ℚ :=
    if !citation_issues.isEmpty && decide (citation_score < 1 / 2) then -(1 / 10) else 0
  let num := validate_numerical_consistency answer question
  let numerical_score := num.1
  let numerical_issues := num.2
  let adjNumerical : ℚ :=
    if !numerical_issues.isEmpty && decide (numerical_score < 6 / 10) then -(15 / 100) else 0
  let saf := validate_domain_safety answer question domain
  let safety_score := saf.1
  let safety_issues := saf.2.1
  let safety_corrections := saf.2.2
  let adjSafety : ℚ := if safety_score < 7 / 10 then -(2 / 10) else 0
  let comp := validate_completeness answer question
  let completeness_score := comp.1
  let completeness_issues := comp.2
  let adjCompleteness : ℚ :=
    if !completeness_issues.isEmpty && decide (completeness_score < 1 / 2) then -(8 / 100) else 0
  let overall_quality :=
    (citation_score + numerical_score + safety_score + completeness_score) / 4
  let bonus : ℚ := if overall_quality > 85 / 100 then 5 / 100 else 0
  { is_valid := decide (4 / 10 ≤ citation_score ∧ 1 / 2 ≤ numerical_score ∧
      6 / 10 ≤ safety_score ∧ 4 / 10 ≤ completeness_score)
    confidence_adjustment := adjCitation + adjNumerical + adjSafety + adjCompleteness + bonus
    corrections := safety_corrections
    warnings := citation_issues ++ numerical_issues ++ safety_issues ++ completeness_issues
    quality_score := overall_quality }

/-!
## `apply_corrections`

answer_validator.py lines 380–405.
-/

/-- The directive marker tested by `correction.startswith("ADD DISCLAIMER:")`. -/
def addDisclaimerMarker : PyStr := ("ADD DISCLAIMER:").toList

/-- The text glued before an appended disclaimer,
`f"\n\n**⚠️ Important:** {disclaimer}"`. -/
def importantTag : PyStr := ("\n\n**⚠️ Important:** ").toList

/-- `correction.replace("ADD DISCLAIMER:", "").strip()`. -/
def disclaimerOf (correction : PyStr) : PyStr :=
  pyStrip (pyReplace correction addDisclaimerMarker [])

/-- One iteration of the `for correction in validation_result.corrections`
loop: a correction that does not start with `ADD DISCLAIMER:` is skipped, and
a disclaimer is appended only when its lowered text is not already contained
in the lowered answer. -/
def applyOneCorrection (corrected_answer correction : PyStr) : PyStr :=
  if pyStartsWith correction addDisclaimerMarker then
    if pyContains (pyLower corrected_answer) (pyLower (disclaimerOf correction)) then
      corrected_answer
    else corrected_answer ++ importantTag ++ disclaimerOf correction
  else corrected_answer

/-- `apply_corrections` (answer_validator.py lines 380–405). -/
def apply_corrections (answer : PyStr) (validation_result : ValidationResult) : PyStr :=
  validation_result.corrections.foldl applyOneCorrection answer

/-- The state in which one correction can no longer change an answer: either
it is not an `ADD DISCLAIMER:` directive, or its disclaimer text already
occurs (case-insensitively) in the answer. -/
def handledCorrection (answer correction : PyStr) : Prop :=
  pyStartsWith correction addDisclaimerMarker = true →
    pyContains (pyLower answer) (pyLower (disclaimerOf correction)) = true

instance (answer correction : PyStr) : Decidable (handledCorrection answer correction) :=
  inferInstanceAs (Decidable (pyStartsWith correction addDisclaimerMarker = true →
    pyContains (pyLower answer) (pyLower (disclaimerOf correction)) = true))

/-- Modelled from the spec: the intermediate citation score the spec
describes, "score scales linearly between 0.2 (zero citations) and 0.9
(≥1 per item)" with the fraction of evidence items cited — for comparison
with the score the code computes. -/
def citationScoreSpecLinear (citation_count expected_min_citations : ℕ) : ℚ :=
  2 / 10 + ((citation_count : ℚ) / (expected_min_citations : ℚ)) * (7 / 10)

/-!
## Concrete fixtures for witnesses and counterexamples
-/

/-- The `finance` domain tag. -/
def finance_domain : PyStr := ("finance").toList

/-- The dangerous phrase of the C3 scenario. -/
def guaranteed_return_phrase : PyStr := ("guaranteed return").toList

/-- The spec's example answer "invest in X, guaranteed return". -/
def c3_answer : PyStr := ("invest in X, guaranteed return").toList

def c3_question : PyStr := ("Should I invest?").toList

/-- An answer citing exactly one source. -/
def c5_answer : PyStr := ("see [Source 1] only").toList

/-- An answer with no citation markers. -/
def c5_nocite_answer : PyStr := ("index funds offer diversification").toList

/-- An answer citing two sources. -/
def c5_full_answer : PyStr := ("x [Source 1] y [Source 2]").toList

/-- A curated evidence item (url and title from the repository's curated
fallback data). -/
def sampleCurated1 : EvidenceSource :=
  ⟨some (("https://www.investor.gov/introduction-investing").toList),
    ("Investor.gov - Introduction to Investing").toList,
    ("Government Financial Education").toList, 9 / 10,
    ("Investing basics").toList, false⟩

def sampleCurated2 : EvidenceSource :=
  ⟨some (("https://www.sec.gov/investor/pubs/assetallocation.htm").toList),
    ("SEC - Asset Allocation").toList,
    ("Government Financial Education").toList, 9 / 10,
    ("Beginners guide to asset allocation").toList, false⟩

/-- A live (internet) evidence item. -/
def sampleLive : EvidenceSource :=
  ⟨some (("https://www.investopedia.com/terms/d/diversification.asp").toList),
    ("Investopedia - Diversification").toList,
    ("Web Search").toList, 7 / 10, ("What is diversification").toList, true⟩

/-- A live item whose locator equals `sampleCurated1`'s. -/
def dupLive : EvidenceSource :=
  ⟨some (("https://www.investor.gov/introduction-investing").toList),
    ("Introduction to Investing (web)").toList,
    ("Web Search").toList, 7 / 10, ("Investing basics page").toList, true⟩

/-- A two-item evidence bundle. -/
def c5_evidence : List EvidenceSource := [sampleCurated1, sampleCurated2]

/-- An answer with no `[Source N]` markers, for the synthesizer scenario. -/
def c9_response : PyStr := ("You should consider broad index funds.").toList

/-- A three-item evidence bundle, none of which the answer cites. -/
def c9_evidence : List EvidenceSource := [sampleCurated1, sampleCurated2, sampleLive]

/-- A `ValidationResult` carrying the code's two finance correction
directives. -/
def c8_validation : ValidationResult :=
  ⟨false, -(2 / 10), [financial_disclaimer_correction, financial_remove_correction], [], 1 / 2⟩

/-- An answer that already contains the finance disclaimer wording. -/
def c8_present_answer : PyStr :=
  ("Stocks carry risk. This is educational information, not financial advice. " ++
    "Consult a qualified financial advisor before making investment decisions.").toList

/-- A `ValidationResult` whose only correction is the `REMOVE:` directive. -/
def c10_validation : ValidationResult :=
  ⟨false, -(2 / 10), [financial_remove_correction], [], 1 / 2⟩

/-- A short answer for the `apply_corrections` frame theorems. -/
def c10_answer : PyStr := ("Put savings in bonds, guaranteed return.").toList

/-!
## Helper lemmas
-/

theorem calibrate_evidence_boost_eq (b s l v r : ℚ) :
    (calibrate b s l v r).evidence_boost = combineEvidence l v := rfl

theorem calibrate_eqf_eq (b s l v r : ℚ) :
    (calibrate b s l v r).evidence_quality_factor =
      if combineEvidence l v > 0 then min (combineEvidence l v / (15 / 100)) 1
      else 1 / 2 := rfl

theorem calibrate_ss_eq (b s l v r : ℚ) :
    (calibrate b s l v r).scaled_safety_boost =
      s * (3 / 10 + 7 / 10 * (calibrate b s l v r).evidence_quality_factor) := rfl

theorem calibrate_sr_eq (b s l v r : ℚ) :
    (calibrate b s l v r).scaled_reasoning_boost =
      r * (4 / 10 + 6 / 10 * (calibrate b s l v r).evidence_quality_factor) := rfl

theorem calibrate_final_eq (b s l v r : ℚ) :
    (calibrate b s l v r).final =
      min (b + (calibrate b s l v r).scaled_safety_boost +
        (calibrate b s l v r).evidence_boost +
        (calibrate b s l v r).scaled_reasoning_boost) (85 / 100) := rfl

theorem calibrate_eqf_nonneg (b s l v r : ℚ) (hl : 0 ≤ l) (hv : 0 ≤ v) :
    0 ≤ (calibrate b s l v r).evidence_quality_factor := by
  rw [calibrate_eqf_eq]
  split
  · exact le_min (div_nonneg (le_min (add_nonneg hl hv) (by norm_num)) (by norm_num))
      (by norm_num)
  · norm_num

/-!
## Claim theorems
-/

/-- C1, counterexample: the claim asserts `final ≥ base` for any base value,
but at base 0.9 (all boosts 0) the code yields `min(0.9, 0.85) = 0.85 < 0.9`:
the final confidence drops below the base. -/
theorem calibrate_high_base_counterexample :
    (calibrate (9 / 10) 0 0 0 0).final = 85 / 100 ∧
    (calibrate (9 / 10) 0 0 0 0).final < 9 / 10 := by
  have h : (calibrate (9 / 10) 0 0 0 0).final = 85 / 100 := by
    rw [calibrate_final_eq, calibrate_ss_eq, calibrate_sr_eq, calibrate_evidence_boost_eq,
      calibrate_eqf_eq]
    norm_num [combineEvidence, min_def]
  exact ⟨h, by rw [h]; norm_num⟩

/-- C1, amended: for nonnegative boost inputs and a base not exceeding the
ceiling 0.85, the calibrated confidence satisfies `final ≤ 0.85` and
`final ≥ base`.  (The unrestricted claim fails: with base above the ceiling
the `min` lowers the result below base, and the code has no floor at base.) -/
theorem calibrate_final_bounds (b s l v r : ℚ) (hs : 0 ≤ s) (hl : 0 ≤ l)
    (hv : 0 ≤ v) (hr : 0 ≤ r) (hb : b ≤ 85 / 100) :
    (calibrate b s l v r).final ≤ CONFIDENCE_CEILING ∧
    b ≤ (calibrate b s l v r).final := by
  have heqf := calibrate_eqf_nonneg b s l v r hl hv
  have heb : 0 ≤ (calibrate b s l v r).evidence_boost := by
    rw [calibrate_evidence_boost_eq]
    exact le_min (add_nonneg hl hv) (by norm_num)
  have hss : 0 ≤ (calibrate b s l v r).scaled_safety_boost := by
    rw [calibrate_ss_eq]
    exact mul_nonneg hs (by nlinarith)
  have hsr : 0 ≤ (calibrate b s l v r).scaled_reasoning_boost := by
    rw [calibrate_sr_eq]
    exact mul_nonneg hr (by nlinarith)
  constructor
  · rw [calibrate_final_eq]
    exact min_le_right _ _
  · rw [calibrate_final_eq]
    exact le_min (by nlinarith) hb

/-- Witness for `calibrate_final_bounds` at base 0.5 and boosts
(0.1, 0.2, 0.1, 0.1). -/
theorem calibrate_final_bounds_witness :
    (calibrate (1 / 2) (1 / 10) (2 / 10) (1 / 10) (1 / 10)).final ≤ CONFIDENCE_CEILING ∧
    1 / 2 ≤ (calibrate (1 / 2) (1 / 10) (2 / 10) (1 / 10) (1 / 10)).final :=
  calibrate_final_bounds (1 / 2) (1 / 10) (2 / 10) (1 / 10) (1 / 10)
    (by norm_num) (by norm_num) (by norm_num) (by norm_num) (by norm_num)

/-- C2: the combined evidence boost equals `min(local + live, 0.35)`, hence
never exceeds the evidence cap 0.35, and at local = live = 0.5 it clamps to
exactly 0.35. -/
theorem evidence_boost_capped (l v : ℚ) :
    combineEvidence l v = min (l + v) EVIDENCE_CAP ∧
    combineEvidence l v ≤ 35 / 100 ∧
    combineEvidence (1 / 2) (1 / 2) = 35 / 100 := by
  refine ⟨rfl, ?_, by norm_num [combineEvidence, min_def]⟩
  exact min_le_right (l + v) (35 / 100)

/-- C4, counterexample: the claim asserts malformed (negative) boosts are
clamped to zero and never lower the final confidence below base; but the code
performs no such clamping — with base 0.5 and safety boost −0.5 the final
confidence is 0.175, strictly below base. -/
theorem calibrate_negative_boost_counterexample :
    (calibrate (1 / 2) (-(1 / 2)) 0 0 0).final = 7 / 40 ∧
    (calibrate (1 / 2) (-(1 / 2)) 0 0 0).final < 1 / 2 := by
  have h : (calibrate (1 / 2) (-(1 / 2)) 0 0 0).final = 7 / 40 := by
    rw [calibrate_final_eq, calibrate_ss_eq, calibrate_sr_eq, calibrate_evidence_boost_eq,
      calibrate_eqf_eq]
    norm_num [combineEvidence, min_def]
  exact ⟨h, by rw [h]; norm_num⟩

/-- C4, amended: the calibration applies no clamping to individual boost
inputs — the only clamps are the evidence cap and the confidence ceiling.  A
negative safety boost propagates through the arithmetic and makes the final
confidence strictly lower than the base, for every base value.  (The
arithmetic itself is total, so no exception is raised; NaN has no rational
counterpart and is outside this model.) -/
theorem calibrate_negative_boost_lowers_final (b s : ℚ) (hs : s < 0) :
    (calibrate b s 0 0 0).final < b := by
  have heb : (calibrate b s 0 0 0).evidence_boost = 0 := by
    rw [calibrate_evidence_boost_eq]
    norm_num [combineEvidence]
  have heqf : (calibrate b s 0 0 0).evidence_quality_factor = 1 / 2 := by
    rw [calibrate_eqf_eq]
    norm_num [combineEvidence]
  have hss : (calibrate b s 0 0 0).scaled_safety_boost = s * (13 / 20) := by
    rw [calibrate_ss_eq, heqf]; ring
  have hsr : (calibrate b s 0 0 0).scaled_reasoning_boost = 0 := by
    rw [calibrate_sr_eq, heqf]; ring
  rw [calibrate_final_eq, heb, hss, hsr]
  calc min (b + s * (13 / 20) + 0 + 0) (85 / 100) ≤ b + s * (13 / 20) + 0 + 0 :=
        min_le_left _ _
    _ < b := by nlinarith

/-- Witness for `calibrate_negative_boost_lowers_final` at base 0.6 and
safety boost −0.1. -/
theorem calibrate_negative_boost_witness :
    (calibrate (6 / 10) (-(1 / 10)) 0 0 0).final < 6 / 10 :=
  calibrate_negative_boost_lowers_final (6 / 10) (-(1 / 10)) (by norm_num)

theorem pyContains_iff (hay needle : PyStr) :
    pyContains hay needle = true ↔ needle <:+: hay := by
  induction hay with
  | nil => simp [pyContains, List.isPrefixOf_iff_prefix, List.infix_nil, List.prefix_nil]
  | cons c t ih =>
    simp only [pyContains, Bool.or_eq_true, List.isPrefixOf_iff_prefix, ih]
    exact (List.infix_cons_iff).symm

theorem pyLower_append (a b : PyStr) : pyLower (a ++ b) = pyLower a ++ pyLower b :=
  List.map_append _ a b

theorem pyContains_append_left (a t x : PyStr) (h : pyContains a x = true) :
    pyContains (a ++ t) x = true := by
  rw [pyContains_iff] at h ⊢
  exact h.trans (List.prefix_append a t).isInfix

theorem handledCorrection_append (a t c : PyStr) (h : handledCorrection a c) :
    handledCorrection (a ++ t) c := by
  intro hp
  rw [pyLower_append]
  exact pyContains_append_left _ _ _ (h hp)

theorem applyOneCorrection_growth (acc c : PyStr) :
    ∃ t, applyOneCorrection acc c = acc ++ t := by
  unfold applyOneCorrection
  split
  · split
    · exact ⟨[], by simp⟩
    · exact ⟨importantTag ++ disclaimerOf c, by simp⟩
  · exact ⟨[], by simp⟩

theorem foldl_applyOne_growth (cs : List PyStr) :
    ∀ acc : PyStr, ∃ t, cs.foldl applyOneCorrection acc = acc ++ t := by
  induction cs with
  | nil => exact fun acc => ⟨[], by simp⟩
  | cons c cs ih =>
    intro acc
    obtain ⟨t1, h1⟩ := applyOneCorrection_growth acc c
    obtain ⟨t2, h2⟩ := ih (applyOneCorrection acc c)
    exact ⟨t1 ++ t2, by rw [List.foldl_cons, h2, h1, List.append_assoc]⟩

theorem applyOneCorrection_handled (acc c : PyStr) :
    handledCorrection (applyOneCorrection acc c) c := by
  intro hp
  unfold applyOneCorrection
  rw [hp, if_pos rfl]
  by_cases hin : pyContains (pyLower acc) (pyLower (disclaimerOf c)) = true
  · rw [if_pos hin]; exact hin
  · rw [Bool.not_eq_true] at hin
    rw [if_neg (by simp [hin])]
    rw [pyLower_append]
    rw [pyContains_iff]
    exact (List.suffix_append (pyLower (acc ++ importantTag)) _).isInfix

theorem applyOneCorrection_of_handled (acc c : PyStr) (h : handledCorrection acc c) :
    applyOneCorrection acc c = acc := by
  unfold applyOneCorrection
  by_cases hp : pyStartsWith c addDisclaimerMarker = true
  · rw [hp, if_pos rfl, if_pos (h hp)]
  · rw [Bool.not_eq_true] at hp
    rw [if_neg (by simp [hp])]

theorem applyOneCorrection_of_not_marker (acc c : PyStr)
    (h : pyStartsWith c addDisclaimerMarker = false) :
    applyOneCorrection acc c = acc := by
  unfold applyOneCorrection
  rw [if_neg (by simp [h])]

theorem foldl_applyOne_all_handled (cs : List PyStr) :
    ∀ (acc c : PyStr), c ∈ cs → handledCorrection (cs.foldl applyOneCorrection acc) c := by
  induction cs with
  | nil => intro _ _ h; cases h
  | cons c0 cs ih =>
    intro acc c hc
    rw [List.foldl_cons]
    rcases List.mem_cons.mp hc with rfl | hmem
    · obtain ⟨t, ht⟩ := foldl_applyOne_growth cs (applyOneCorrection acc c)
      rw [ht]
      exact handledCorrection_append _ _ _ (applyOneCorrection_handled acc c)
    · exact ih _ c hmem

theorem foldl_applyOne_of_handled (cs : List PyStr) :
    ∀ acc : PyStr, (∀ c ∈ cs, handledCorrection acc c) →
      cs.foldl applyOneCorrection acc = acc := by
  induction cs with
  | nil => intro _ _; rfl
  | cons c0 cs ih =>
    intro acc h
    rw [List.foldl_cons, applyOneCorrection_of_handled acc c0 (h c0 (List.mem_cons_self c0 cs))]
    exact ih acc fun c hc => h c (List.mem_cons_of_mem c0 hc)

theorem foldl_applyOne_of_no_marker (cs : List PyStr) :
    ∀ acc : PyStr, (∀ c ∈ cs, pyStartsWith c addDisclaimerMarker = false) →
      cs.foldl applyOneCorrection acc = acc := by
  induction cs with
  | nil => intro _ _; rfl
  | cons c0 cs ih =>
    intro acc h
    rw [List.foldl_cons,
      applyOneCorrection_of_not_marker acc c0 (h c0 (List.mem_cons_self c0 cs))]
    exact ih acc fun c hc => h c (List.mem_cons_of_mem c0 hc)

/-- C8: `apply_corrections` is idempotent — applying it twice with the same
`ValidationResult` equals applying it once, for every answer and every
result; moreover when every `ADD DISCLAIMER:` correction's wording is
already contained in the answer (case-insensitively), applying the
corrections leaves the answer unchanged. -/
theorem apply_corrections_idempotent (a : PyStr) (v : ValidationResult) :
    apply_corrections (apply_corrections a v) v = apply_corrections a v ∧
    ((∀ c ∈ v.corrections, handledCorrection a c) → apply_corrections a v = a) := by
  constructor
  · exact foldl_applyOne_of_handled v.corrections (apply_corrections a v)
      fun c hc => foldl_applyOne_all_handled v.corrections a c hc
  · exact foldl_applyOne_of_handled v.corrections a

set_option maxRecDepth 20000 in
/-- Witness for `apply_corrections_idempotent`: the finance correction pair
applied twice to a plain answer, and applied once to an answer already
containing the disclaimer wording. -/
theorem apply_corrections_idempotent_witness :
    apply_corrections (apply_corrections c10_answer c8_validation) c8_validation =
      apply_corrections c10_answer c8_validation ∧
    apply_corrections c8_present_answer c8_validation = c8_present_answer :=
  ⟨(apply_corrections_idempotent c10_answer c8_validation).1,
    (apply_corrections_idempotent c8_present_answer c8_validation).2 (by decide)⟩

/-- C10: corrections only append — the original answer is a prefix of
`apply_corrections(answer, v)` for every `ValidationResult` `v`; and when no
correction starts with `ADD DISCLAIMER:` (in particular for the `REMOVE:`
directive emitted for guaranteed-return claims) the answer is returned
unchanged. -/
theorem apply_corrections_appends_only (a : PyStr) (v : ValidationResult) :
    a <+: apply_corrections a v ∧
    ((∀ c ∈ v.corrections, pyStartsWith c addDisclaimerMarker = false) →
      apply_corrections a v = a) := by
  constructor
  · obtain ⟨t, ht⟩ := foldl_applyOne_growth v.corrections a
    exact ⟨t, ht.symm⟩
  · exact foldl_applyOne_of_no_marker v.corrections a

/-- Witness for `apply_corrections_appends_only`: with only the `REMOVE:`
directive the answer is a prefix of the result and is in fact unchanged. -/
theorem apply_corrections_appends_only_witness :
    c10_answer <+: apply_corrections c10_answer c10_validation ∧
    apply_corrections c10_answer c10_validation = c10_answer :=
  ⟨(apply_corrections_appends_only c10_answer c10_validation).1,
    (apply_corrections_appends_only c10_answer c10_validation).2 (by decide)⟩

theorem validate_response_is_valid_eq (a q d : PyStr) (e : List EvidenceSource) :
    (validate_response a q d e).is_valid =
      decide (4 / 10 ≤ (validate_citations a e).1 ∧
        1 / 2 ≤ (validate_numerical_consistency a q).1 ∧
        6 / 10 ≤ (validate_domain_safety a q d).1 ∧
        4 / 10 ≤ (validate_completeness a q).1) := rfl

theorem validate_domain_safety_finance (a q : PyStr) :
    validate_domain_safety a q finance_domain = validate_financial_safety (pyLower a) := rfl

/-- C3, counterexample: for the answer "invest in X, guaranteed return" (no
disclaimer phrase present) the financial safety check returns 0.4, not a
score ≤ 0.2 — the 0.2 "critical" branch is only reachable after a
disclaimer phrase has been found. -/
theorem guaranteed_return_score_counterexample :
    (validate_financial_safety (pyLower c3_answer)).1 = 4 / 10 ∧
    ¬((validate_financial_safety (pyLower c3_answer)).1 ≤ 2 / 10) := by
  have h : (validate_financial_safety (pyLower c3_answer)).1 = 4 / 10 := rfl
  exact ⟨h, by rw [h]; norm_num⟩

/-- C3, amended: an answer containing "guaranteed return" (with its
investment content) in domain finance receives a domain-safety score of at
most 0.4 — 0.4 when no disclaimer phrase is present, 0.2 when one is — and
`validate_response` returns `is_valid = false` in either case. -/
theorem guaranteed_return_is_invalid (answer question : PyStr)
    (evidence_sources : List EvidenceSource)
    (h : pyContains (pyLower answer) guaranteed_return_phrase = true) :
    (validate_financial_safety (pyLower answer)).1 ≤ 4 / 10 ∧
    (validate_response answer question finance_domain evidence_sources).is_valid = false := by
  have hal := (pyContains_iff _ _).mp h
  have hg : pyContains (pyLower answer) (("guaranteed").toList) = true := by
    rw [pyContains_iff]
    exact (show ("guaranteed").toList <+: guaranteed_return_phrase by decide).isInfix.trans hal
  have hkw : (financial_safety_keywords.any fun kw => pyContains (pyLower answer) kw) = true := by
    rw [List.any_eq_true]
    exact ⟨("guaranteed").toList, by decide, hg⟩
  have hdang : (financial_dangerous_terms.any fun t => pyContains (pyLower answer) t) = true := by
    rw [List.any_eq_true]
    exact ⟨guaranteed_return_phrase, by decide, h⟩
  have hscore : (validate_financial_safety (pyLower answer)).1 ≤ 4 / 10 := by
    unfold validate_financial_safety
    rw [hkw]
    by_cases hd : (financial_disclaimer_phrases.any fun p => pyContains (pyLower answer) p) = true
    · rw [hd, hdang]
      norm_num
    · rw [Bool.not_eq_true] at hd
      rw [hd]
      norm_num
  refine ⟨hscore, ?_⟩
  rw [validate_response_is_valid_eq]
  apply decide_eq_false
  rintro ⟨-, -, h6, -⟩
  rw [validate_domain_safety_finance] at h6
  linarith

/-- Witness for `guaranteed_return_is_invalid` at the spec's concrete answer
"invest in X, guaranteed return". -/
theorem guaranteed_return_is_invalid_witness :
    (validate_financial_safety (pyLower c3_answer)).1 ≤ 4 / 10 ∧
    (validate_response c3_answer c3_question finance_domain []).is_valid = false :=
  guaranteed_return_is_invalid c3_answer c3_question [] (by decide)

/-- C5, counterexample: with two evidence items and one citation the code
scores 0.5 + (1/2)·0.3 = 0.65, while a score scaling linearly between 0.2
and 0.9 with the fraction cited would give 0.2 + (1/2)·0.7 = 0.55. -/
theorem citation_score_not_spec_linear :
    (validate_citations c5_answer c5_evidence).1 = 65 / 100 ∧
    citationScoreSpecLinear (sourceCiteMatches c5_answer).length c5_evidence.length = 55 / 100 ∧
    (validate_citations c5_answer c5_evidence).1 ≠
      citationScoreSpecLinear (sourceCiteMatches c5_answer).length c5_evidence.length := by
  have hm : sourceCiteMatches c5_answer = [1] := by decide
  have hl : c5_evidence.length = 2 := by decide
  have h1 : (validate_citations c5_answer c5_evidence).1 = 65 / 100 := by
    norm_num [validate_citations, hm, hl]
  have h2 : citationScoreSpecLinear (sourceCiteMatches c5_answer).length c5_evidence.length =
      55 / 100 := by
    rw [hm, hl]
    norm_num [citationScoreSpecLinear]
  exact ⟨h1, h2, by rw [h1, h2]; norm_num⟩

/-- C5, amended: the citation check scores 0.7 when the evidence list is
empty (or `None`), 0.2 when evidence is present but the answer has zero
`[Source N]` markers, 0.9 when the citation count reaches the evidence
count; for every intermediate count the score is
`0.5 + 0.3·(count/size)` — linear in the cited fraction, but ranging
strictly between 0.5 and 0.8 rather than between 0.2 and 0.9. -/
theorem validate_citations_piecewise :
    (∀ answer : PyStr, validate_citations answer [] = (7 / 10, [])) ∧
    (∀ (answer : PyStr) (ev : List EvidenceSource), ev ≠ [] →
      (sourceCiteMatches answer).length = 0 → (validate_citations answer ev).1 = 2 / 10) ∧
    (∀ (answer : PyStr) (ev : List EvidenceSource), ev ≠ [] →
      ev.length ≤ (sourceCiteMatches answer).length →
      (validate_citations answer ev).1 = 9 / 10) ∧
    (∀ (answer : PyStr) (ev : List EvidenceSource), ev ≠ [] →
      0 < (sourceCiteMatches answer).length → (sourceCiteMatches answer).length < ev.length →
      (validate_citations answer ev).1 =
        1 / 2 + ((sourceCiteMatches answer).length : ℚ) / (ev.length : ℚ) * (3 / 10) ∧
      1 / 2 < (validate_citations answer ev).1 ∧
      (validate_citations answer ev).1 < 8 / 10) := by
  refine ⟨fun _ => rfl, ?_, ?_, ?_⟩
  · intro answer ev hne hc
    have hpos : 0 < ev.length := List.length_pos.mpr hne
    have hlen : ¬(ev.length = 0) := by omega
    unfold validate_citations
    rw [if_neg hlen, if_pos hc]
  · intro answer ev hne hge
    have hpos : 0 < ev.length := List.length_pos.mpr hne
    have hlen : ¬(ev.length = 0) := by omega
    unfold validate_citations
    rw [if_neg hlen, if_neg (by omega : ¬((sourceCiteMatches answer).length = 0)),
      if_neg (by omega : ¬((sourceCiteMatches answer).length < ev.length))]
  · intro answer ev hne hc hlt
    have hpos : 0 < ev.length := List.length_pos.mpr hne
    have hlen : ¬(ev.length = 0) := by omega
    have heq : (validate_citations answer ev).1 =
        1 / 2 + ((sourceCiteMatches answer).length : ℚ) / (ev.length : ℚ) * (3 / 10) := by
      unfold validate_citations
      rw [if_neg hlen, if_neg (by omega : ¬((sourceCiteMatches answer).length = 0)),
        if_pos hlt]
    have hq0 : (0 : ℚ) < ((sourceCiteMatches answer).length : ℚ) / (ev.length : ℚ) :=
      div_pos (by exact_mod_cast hc) (by exact_mod_cast hpos)
    have hq1 : ((sourceCiteMatches answer).length : ℚ) / (ev.length : ℚ) < 1 :=
      (div_lt_one (by exact_mod_cast hpos)).mpr (by exact_mod_cast hlt)
    refine ⟨heq, ?_, ?_⟩ <;> rw [heq] <;> nlinarith

/-- Witness for `validate_citations_piecewise`: the four branches at
concrete answers against the two-item bundle. -/
theorem validate_citations_piecewise_witness :
    validate_citations c5_answer [] = (7 / 10, []) ∧
    (validate_citations c5_nocite_answer c5_evidence).1 = 2 / 10 ∧
    (validate_citations c5_full_answer c5_evidence).1 = 9 / 10 ∧
    ((validate_citations c5_answer c5_evidence).1 =
      1 / 2 + ((sourceCiteMatches c5_answer).length : ℚ) / (c5_evidence.length : ℚ) * (3 / 10) ∧
     1 / 2 < (validate_citations c5_answer c5_evidence).1 ∧
     (validate_citations c5_answer c5_evidence).1 < 8 / 10) :=
  ⟨validate_citations_piecewise.1 c5_answer,
   validate_citations_piecewise.2.1 c5_nocite_answer c5_evidence (by decide) (by decide),
   validate_citations_piecewise.2.2.1 c5_full_answer c5_evidence (by decide) (by decide),
   validate_citations_piecewise.2.2.2 c5_answer c5_evidence (by decide) (by decide) (by decide)⟩

/-- C6: the merge always concatenates curated (YAML) sources before live
(Internet) sources, so curated items precede live items, and the two
concrete scenarios of the spec hold: Curated=[A,B], Live=[C] merges to
[A,B,C]; Curated=[], Live=[C] merges to [C]. -/
theorem merge_curated_precedes_live (yaml_sources internet_sources : List EvidenceSource)
    (A B C : EvidenceSource) :
    mergeSources yaml_sources internet_sources = yaml_sources ++ internet_sources ∧
    mergeSources [A, B] [C] = [A, B, C] ∧
    mergeSources [] [C] = [C] := by
  refine ⟨?_, rfl, rfl⟩
  cases yaml_sources <;> cases internet_sources <;> simp [mergeSources]

/-- C7: the merged evidence list does not collapse items with identical
locators — merging a curated item and a live item that carry the same URL
keeps both (the claimed deduplication does not exist in the code, although
the caller's comment at finance_agent.py:275 says it is handled). -/
theorem merge_keeps_duplicate_locators :
    mergeSources [sampleCurated1] [dupLive] = [sampleCurated1, dupLive] ∧
    sampleCurated1.url = dupLive.url ∧
    sampleCurated1.title ≠ dupLive.title ∧
    (mergeSources [sampleCurated1] [dupLive]).length = 2 :=
  ⟨rfl, rfl, by decide, rfl⟩

theorem sourceDetail_fst (evidence_sources : List EvidenceSource) (num : ℕ) :
    (sourceDetail evidence_sources num).1 = num := by
  unfold sourceDetail
  cases evidence_sources.get? (num - 1) <;> rfl

/-- C9: whenever the evidence bundle is non-empty and the number of distinct
cited `[Source N]` indices is smaller than the bundle size, the synthesizer
overrides the citations and its source summary carries exactly the numbers
1..n of every bundle item — one `source_details` line per item. -/
theorem synthesizer_lists_every_source (response : PyStr)
    (evidence_sources : List EvidenceSource) (hne : evidence_sources ≠ [])
    (hlt : (uniqueCited response).length < evidence_sources.length) :
    finalSourceNums response evidence_sources = List.range' 1 evidence_sources.length ∧
    (sourceDetails response evidence_sources).map Prod.fst =
      List.range' 1 evidence_sources.length ∧
    (sourceDetails response evidence_sources).length = evidence_sources.length := by
  have hcond : (!evidence_sources.isEmpty &&
      decide ((uniqueCited response).length < evidence_sources.length)) = true := by
    simp [hne, hlt]
  have h1 : finalSourceNums response evidence_sources =
      List.range' 1 evidence_sources.length := by
    unfold finalSourceNums
    rw [if_pos hcond]
  refine ⟨h1, ?_, ?_⟩
  · unfold sourceDetails
    rw [h1, List.map_map]
    have : (Prod.fst ∘ sourceDetail evidence_sources) =
        fun num => (sourceDetail evidence_sources num).1 := rfl
    rw [this]
    calc (List.range' 1 evidence_sources.length).map
          (fun num => (sourceDetail evidence_sources num).1)
        = (List.range' 1 evidence_sources.length).map id := by
          apply List.map_congr_left
          intro x _
          rw [sourceDetail_fst]
          rfl
      _ = List.range' 1 evidence_sources.length := List.map_id _
  · unfold sourceDetails
    rw [h1, List.length_map, List.length_range']

/-- Witness for `synthesizer_lists_every_source`: a three-item bundle with
an answer citing nothing yields the full summary [1, 2, 3]. -/
theorem synthesizer_lists_every_source_witness :
    finalSourceNums c9_response c9_evidence = [1, 2, 3] ∧
    (sourceDetails c9_response c9_evidence).length = 3 := by
  have h := synthesizer_lists_every_source c9_response c9_evidence (by decide) (by decide)
  constructor
  · rw [h.1]; rfl
  · rw [h.2.2]; rfl

end FairAgent
